import Mathlib

/-!
Shallow embedding of `rbclib` (source file `src/rbclib/__init__.py`), an
address-resolution and read-only virtual-filesystem layer over the RBC
dataset.

Python `str` and `bytes` values are modelled as `String`.  The string
primitives the source relies on (`str.split`, `str.lstrip`,
`str.startswith`, `in`-containment, `PurePosixPath(...).parts`) are given
structurally recursive definitions so every model is executable.  The
external collaborators — the local filesystem and the remote HTTP fetch —
are modelled as oracles passed explicitly to each operation; an operation
that never consults an oracle performs no I/O.  Exceptions are modelled as
explicit error values (`Option`/`Except`/dedicated result inductives).
-/

namespace Rbclib

/-- Python `s.split(c)` for a one-character separator, on character lists.
The result is always nonempty (splitting the empty string gives one empty
segment, as in Python). -/
def charSplit (c : Char) : List Char → List (List Char)
  | [] => [[]]
  | x :: xs =>
    match charSplit c xs with
    | [] => [[x]]
    | h :: t => if x == c then [] :: h :: t else (x :: h) :: t

/-- Python `s.split(c)` on strings. -/
def strSplit (c : Char) (s : String) : List String :=
  (charSplit c s.data).map String.mk

/-- Python `needle in s` (substring containment on byte strings). -/
def strContains (needle s : String) : Bool :=
  s.data.tails.any (fun t => needle.data.isPrefixOf t)

/-- Python `s.startswith(pre)`. -/
def strStartsWith (pre s : String) : Bool :=
  pre.data.isPrefixOf s.data

/-- Python `s[n:]`. -/
def strDrop (n : Nat) (s : String) : String :=
  String.mk (s.data.drop n)

/-- Python `s.lstrip('/')`. -/
def lstripSlash (s : String) : String :=
  String.mk (s.data.dropWhile (fun c => c == '/'))

/-- `PurePosixPath(s).parts` for a relative path `s`: the slash-separated
components with empty components (from repeated separators) and single-dot
components removed, which is how `pathlib` normalizes a relative path. -/
def posixParts (s : String) : List String :=
  (strSplit '/' s).filter (fun p => p != "" && p != ".")

/-- Python `'/'.join(parts)`. -/
def strJoinSlash : List String → String
  | [] => ""
  | [s] => s
  | s :: rest => s ++ "/" ++ strJoinSlash rest

/-- Python `s.split('/')[-1]`: the final slash-delimited segment.  The
split list is never empty, so the default is never used. -/
def lastSeg (s : String) : String :=
  (strSplit '/' s).getLastD ""

/-- The scheme-stripping step of `RBCClient._path_split_repo`
(lines 35-36): the prefix is removed when the string starts with the exact
text `rbc://` or the exact text `RBC://`. -/
def path_strip_scheme (path : String) : String :=
  if strStartsWith "rbc://" path || strStartsWith "RBC://" path then
    strDrop 6 path
  else
    path

/-- `RBCClient._path_split_repo` (lines 32-41).  `none` models the
`IndexError` raised by `parts[0]` when no path components remain after
stripping the scheme and leading separators. -/
def path_split_repo (path : String) : Option (String × String) :=
  match posixParts (lstripSlash (path_strip_scheme path)) with
  | [] => none
  | repo :: rest => some (repo, strJoinSlash rest)

/-- `RBCClient._get_github_path` (lines 42-47) without the repeated split:
the raw-content URL for a `(repo, tail)` pair. -/
def github_raw_url (repo tail : String) : String :=
  "https://raw.githubusercontent.com/ReproBrainChart/" ++ repo ++
    "/refs/heads/main/" ++ tail

/-- `RBCClient._get_github_path` (lines 42-47): re-splits the path and
builds the raw-content URL; `none` when the split raises `IndexError`. -/
def get_github_path (path : String) : Option String :=
  (path_split_repo path).map (fun rt => github_raw_url rt.1 rt.2)

/-- `RBCClient._get_github_apipath` (lines 48-53); defined in the source
but never called by it. -/
def github_api_url (repo tail : String) : String :=
  "https://api.github.com/repos/ReproBrainChart/" ++ repo ++
    "/contents/" ++ tail

/-- Oracle for the local filesystem under the configured mirror root.
`readlink p = none` models `Path.readlink` raising `FileNotFoundError`;
`lstatOk p = false` models `Path.lstat` raising `FileNotFoundError`;
`childNames p` lists the bare names of the children of directory `p`
(`Path.iterdir` yields each of them prefixed by `p`, which the model
reproduces at the call site). -/
structure FSModel where
  isDir : String → Bool
  isFile : String → Bool
  lstatOk : String → Bool
  readlink : String → Option String
  childNames : String → List String

/-- `pathlib`'s `/` join for the path pieces the source produces: joining
an empty final piece leaves the path unchanged. -/
def joinPath (a b : String) : String :=
  if b == "" then a else a ++ "/" ++ b

/-- Shape of the value `json.loads` produces as far as the source inspects
it: a JSON array (whose elements' `path` fields are kept), a JSON object
(whose `path` field is kept), or anything else. -/
inductive GHJson where
  | arr (paths : List String)
  | obj (path : String)
  | other
deriving DecidableEq, Repr

/-- The Python exceptions the metadata-query and listing paths can raise. -/
inductive FacadeError where
  | fileNotFound
  | indexError
  | typeError
  | notImplemented
deriving DecidableEq, Repr

/-- Decidable equality for `Except` results, so that concrete outcomes can
be checked by evaluation. -/
def exceptDecEq {ε α : Type} [DecidableEq ε] [DecidableEq α] :
    (x y : Except ε α) → Decidable (x = y)
  | .ok a, .ok b =>
    match decEq a b with
    | isTrue h => isTrue (by rw [h])
    | isFalse h => isFalse (by intro hc; cases hc; exact h rfl)
  | .ok _, .error _ => isFalse (by intro hc; cases hc)
  | .error _, .ok _ => isFalse (by intro hc; cases hc)
  | .error e, .error f =>
    match decEq e f with
    | isTrue h => isTrue (by rw [h])
    | isFalse h => isFalse (by intro hc; cases hc; exact h rfl)

instance {ε α : Type} [DecidableEq ε] [DecidableEq α] :
    DecidableEq (Except ε α) :=
  exceptDecEq

/-- `RBCClient._get_github_json` (lines 54-69).  With a local mirror
configured: a directory yields one entry per child, each entry being the
full child path exactly as `locpath.iterdir()` yields it; otherwise a
readable link status yields a single-entry object carrying the local path;
otherwise `FileNotFoundError`.  Without a mirror: fetch the raw-content
URL and parse it as JSON (the fetch and parse are the `remote_json`
oracle). -/
def get_github_json (github_path : Option String) (fs : FSModel)
    (remote_json : String → GHJson) (path : String) :
    Except FacadeError GHJson :=
  match github_path with
  | some gp =>
    match path_split_repo path with
    | none => .error .indexError
    | some (repo, tail) =>
      let locpath := joinPath (joinPath gp repo) tail
      if fs.isDir locpath then
        .ok (.arr ((fs.childNames locpath).map (fun n => locpath ++ "/" ++ n)))
      else if fs.lstatOk locpath then
        .ok (.obj locpath)
      else
        .error .fileNotFound
  | none =>
    match path_split_repo path with
    | none => .error .indexError
    | some (repo, tail) =>
      .ok (remote_json (github_raw_url repo tail))

/-- Outcome of `RBCClient._get_s3_path` (lines 70-88).  `s3path` is the
normal return; `rbcExc` is `RBCFileException(url, contents)`; `nameError`
models the `UnboundLocalError` raised when the `raise RBCFileException(
ghpath, dat)` statement reads the variable `ghpath`, which is assigned
only in the remote-fetch branch; the remaining constructors model the
other uncaught exceptions. -/
inductive S3Result where
  | s3path (url : String)
  | rbcExc (url : String) (contents : String)
  | fileNotFound
  | nameError
  | indexError
deriving DecidableEq, Repr

/-- The fixed indirection marker tested on line 85. -/
def annexMarker : String := "/.git/annex/objects/"

/-- The fixed object-store base for a repository (line 72). -/
def s3Base (repo : String) : String :=
  "s3://fcp-indi/data/Projects/RBC/" ++ repo

/-- Result of the byte-obtaining step of `_get_s3_path` (lines 73-84):
either an early return (local directory/plain-file fast path), an early
`FileNotFoundError` from `readlink`, or the obtained indirection bytes
together with the value of the local variable `ghpath` (`none` in the
local-mirror branch, where the source never assigns it). -/
inductive ObtainStep where
  | earlyS3 (url : String)
  | earlyNotFound
  | got (dat : String) (ghpath : Option String)
deriving DecidableEq, Repr

/-- Lines 73-84 of `_get_s3_path`: obtain the indirection bytes. -/
def obtain_indirection (github_path : Option String) (fs : FSModel)
    (url_slurp : String → String) (repo tail : String) : ObtainStep :=
  match github_path with
  | some gp =>
    let localpath := joinPath (joinPath gp repo) tail
    if fs.isDir localpath || fs.isFile localpath then
      .earlyS3 (s3Base repo ++ "/" ++ tail)
    else
      match fs.readlink localpath with
      | none => .earlyNotFound
      | some dat => .got dat none
  | none =>
    let ghpath := github_raw_url repo tail
    .got (url_slurp ghpath) (some ghpath)

/-- `RBCClient._get_s3_path` (lines 70-88).  After the bytes are obtained,
line 85 tests the marker: when absent, line 86 raises
`RBCFileException(ghpath, dat)` — which in the local-mirror branch reads
the unassigned variable `ghpath` and so raises `UnboundLocalError`; when
present, lines 87-88 take the final slash-delimited segment of the bytes
as the content key. -/
def get_s3_path (github_path : Option String) (fs : FSModel)
    (url_slurp : String → String) (path : String) : S3Result :=
  match path_split_repo path with
  | none => .indexError
  | some (repo, tail) =>
    match obtain_indirection github_path fs url_slurp repo tail with
    | .earlyS3 url => .s3path url
    | .earlyNotFound => .fileNotFound
    | .got dat ghpath =>
      if strContains annexMarker dat then
        .s3path (s3Base repo ++ "/" ++ lastSeg dat)
      else
        match ghpath with
        | some url => .rbcExc url dat
        | none => .nameError

/-- The indirection bytes `_get_s3_path` obtains for a path, when it
reaches the marker test at all (`none` on the fast path and on the
error paths). -/
def obtained_bytes (github_path : Option String) (fs : FSModel)
    (url_slurp : String → String) (path : String) : Option String :=
  match path_split_repo path with
  | none => none
  | some (repo, tail) =>
    match obtain_indirection github_path fs url_slurp repo tail with
    | .got dat _ => some dat
    | _ => none

/-- `isinstance(json, list)` as the source tests it. -/
def isList : GHJson → Bool
  | .arr _ => true
  | _ => false

/-- `RBCClient._list_dir` (lines 151-160): recursive listing raises
`NotImplementedError` before anything else; otherwise the path is split,
the metadata query is made, a non-list result raises `TypeError`, and each
entry `p` of a list result yields the virtual path `rbc://<repo>/<p>`. -/
def list_dir (github_path : Option String) (fs : FSModel)
    (remote_json : String → GHJson) (path : String) (recursive : Bool) :
    Except FacadeError (List String) :=
  if recursive then
    .error .notImplemented
  else
    match path_split_repo path with
    | none => .error .indexError
    | some (repo, _tail) =>
      match get_github_json github_path fs remote_json path with
      | .error e => .error e
      | .ok (.arr paths) =>
        .ok (paths.map (fun p => "rbc://" ++ repo ++ "/" ++ p))
      | .ok _ => .error .typeError

/-- `RBCClient._path_kind` (lines 161-166): a non-list query result gives
`"directory"`, a list result gives `"file"`. -/
def path_kind (github_path : Option String) (fs : FSModel)
    (remote_json : String → GHJson) (path : String) :
    Except FacadeError String :=
  match get_github_json github_path fs remote_json path with
  | .error e => .error e
  | .ok j => if !(isList j) then .ok "directory" else .ok "file"

/-- The Python exception classes the mutation operations raise. -/
inductive PyError where
  | runtimeError (msg : String)
  | typeError (msg : String)
deriving DecidableEq, Repr

/-- The message every mutation operation raises with. -/
def readOnlyMsg : String := "RBCPath operations are read-only"

/-- A raised exception counts as the read-only error of the spec taxonomy
when it carries the read-only message. -/
def isReadOnlyError : PyError → Bool
  | .runtimeError m => m == readOnlyMsg
  | .typeError m => m == readOnlyMsg

/-- `RBCClient._move_file` (lines 120-121): unconditional raise. -/
def move_file (src dst : String) (remove_src : Bool) : Except PyError Unit :=
  .error (.runtimeError readOnlyMsg)

/-- `RBCClient._remove` (lines 122-123): unconditional raise. -/
def remove (path : String) (missing_ok : Bool) : Except PyError Unit :=
  .error (.runtimeError readOnlyMsg)

/-- `RBCClient._upload_file` (lines 124-125): unconditional raise. -/
def upload_file (local_path cloud_path : String) : Except PyError Unit :=
  .error (.runtimeError readOnlyMsg)

/-- `RBCPath.mkdir` (lines 220-221): unconditional raise. -/
def mkdir (parents exist_ok : Bool) : Except PyError Unit :=
  .error (.typeError readOnlyMsg)

/-- `RBCPath.touch` (lines 222-223): unconditional raise. -/
def touch (exist_ok : Bool) : Except PyError Unit :=
  .error (.typeError readOnlyMsg)

/-- The slots of the `os.stat_result` tuple that `RBCPath.stat`
populates with non-`None` values: slot 2 (`st_dev`, used as the origin
tag), slot 6 (`st_size`) and slot 8 (`st_mtime`). -/
structure StatRecord where
  origin : String
  size : Nat
  mtime : Nat
deriving DecidableEq, Repr

/-- Byte count of one character under UTF-8, as Python `len` counts the
encoded bytes. -/
def charUtf8Size (c : Char) : Nat :=
  if c.toNat < 128 then 1
  else if c.toNat < 2048 then 2
  else if c.toNat < 65536 then 3
  else 4

/-- Python `len(contents)` for a byte string modelled as a `String`. -/
def byteLen (s : String) : Nat :=
  (s.data.map charUtf8Size).sum

/-- `RBCPath.stat` (lines 224-235) on a first call (empty cache), as a
function of the resolution outcome: a successful resolution delegates to
the object-store stat (the `s3stat` oracle); an `RBCFileException` is
caught and a record is synthesized with `st_dev = 'github://'`,
`st_size = len(e.contents)` and `st_mtime = int(time.time())` (the moment
of resolution, passed as `now`); every other exception propagates
(`none`). -/
def rbcpath_stat (s3stat : String → StatRecord) (res : S3Result)
    (now : Nat) : Option StatRecord :=
  match res with
  | .s3path url => some (s3stat url)
  | .rbcExc _ contents =>
    some { origin := "github://", size := byteLen contents, mtime := now }
  | _ => none

/-- Parsing as the amended claim C6 describes it: the scheme prefix is
removed only when it is exactly `rbc://` or exactly `RBC://` (no other
casing), leading separators are stripped, the first remaining component is
the repository, the remaining components joined by `/` form the tail
(empty when none remain), and an input with no components at all raises
`IndexError` (`none`). -/
def path_split_repo_claim (path : String) : Option (String × String) :=
  let body :=
    if strStartsWith "rbc://" path then strDrop 6 path
    else if strStartsWith "RBC://" path then strDrop 6 path
    else path
  match posixParts (lstripSlash body) with
  | [] => none
  | repo :: rest => some (repo, strJoinSlash rest)

/-- A filesystem oracle on which nothing exists. -/
def fsEmpty : FSModel where
  isDir := fun _ => false
  isFile := fun _ => false
  lstatOk := fun _ => false
  readlink := fun _ => none
  childNames := fun _ => []

/-- The annexed indirection bytes of concrete scenario 2. -/
def annexDat : String :=
  "../../.git/annex/objects/xx/yy/MD5E-s123--abcdef/MD5E-s123--abcdef"

/-- A local mirror in which `/mirror/repo1/participants.tsv` is a
symbolic link whose target bytes are literal TSV content (no marker). -/
def fsLiteralLink : FSModel where
  isDir := fun _ => false
  isFile := fun _ => false
  lstatOk := fun p => p == "/mirror/repo1/participants.tsv"
  readlink := fun p =>
    if p == "/mirror/repo1/participants.tsv" then
      some "participant_id\nsub-1\n"
    else
      none
  childNames := fun _ => []

/-- A local mirror in which `/mirror/repo1/sub` is a real directory with
the two children `a.txt` and `b.txt`. -/
def fsMirrorSub : FSModel where
  isDir := fun p => p == "/mirror/repo1/sub"
  isFile := fun _ => false
  lstatOk := fun p => p == "/mirror/repo1/sub"
  readlink := fun _ => none
  childNames := fun p =>
    if p == "/mirror/repo1/sub" then ["a.txt", "b.txt"] else []

/-- A remote metadata source reporting the same two children for
`repo1/sub`, with repository-relative `path` fields as the API returns
them (concrete scenario 1). -/
def remoteSubListing : String → GHJson :=
  fun _ => .arr ["sub/a.txt", "sub/b.txt"]

/-- Pointwise agreement of two filesystem oracles: every filesystem read
returns identical data on both. -/
def FSAgrees (fs₁ fs₂ : FSModel) : Prop :=
  (∀ p, fs₁.isDir p = fs₂.isDir p) ∧
  (∀ p, fs₁.isFile p = fs₂.isFile p) ∧
  (∀ p, fs₁.lstatOk p = fs₂.lstatOk p) ∧
  (∀ p, fs₁.readlink p = fs₂.readlink p) ∧
  (∀ p, fs₁.childNames p = fs₂.childNames p)

/-- C1: whenever `_get_s3_path` obtains indirection bytes containing the
fixed marker fragment, it returns the object-store location whose key is
the fixed prefix followed by the repository and the final slash-delimited
segment of those bytes. -/
theorem get_s3_path_annexed_key (github_path : Option String)
    (fs : FSModel) (url_slurp : String → String)
    (path repo tail dat : String)
    (hsplit : path_split_repo path = some (repo, tail))
    (hdat : obtained_bytes github_path fs url_slurp path = some dat)
    (hmark : strContains annexMarker dat = true) :
    get_s3_path github_path fs url_slurp path =
      .s3path (s3Base repo ++ "/" ++ lastSeg dat) := by
  unfold obtained_bytes at hdat
  unfold get_s3_path
  simp only [hsplit] at hdat ⊢
  cases hob : obtain_indirection github_path fs url_slurp repo tail with
  | earlyS3 url => simp only [hob] at hdat; exact Option.noConfusion hdat
  | earlyNotFound => simp only [hob] at hdat; exact Option.noConfusion hdat
  | got d g =>
    simp only [hob, Option.some.injEq] at hdat
    subst hdat
    simp [hmark]

theorem get_s3_path_annexed_key_witness :
    path_split_repo "rbc://repo1/data.nii.gz" =
      some ("repo1", "data.nii.gz") ∧
    obtained_bytes none fsEmpty (fun _ => annexDat)
      "rbc://repo1/data.nii.gz" = some annexDat ∧
    strContains annexMarker annexDat = true ∧
    get_s3_path none fsEmpty (fun _ => annexDat) "rbc://repo1/data.nii.gz" =
      .s3path (s3Base "repo1" ++ "/" ++ lastSeg annexDat) ∧
    s3Base "repo1" ++ "/" ++ lastSeg annexDat =
      "s3://fcp-indi/data/Projects/RBC/repo1/MD5E-s123--abcdef" :=
  ⟨by decide, by decide, by decide,
   get_s3_path_annexed_key none fsEmpty (fun _ => annexDat)
     "rbc://repo1/data.nii.gz" "repo1" "data.nii.gz" annexDat
     (by decide) (by decide) (by decide),
   by decide⟩

/-- C2: with a local mirror configured, resolving a path whose symbolic
link carries literal (marker-free) bytes does not produce the Literal
signal with an origin URL — it raises `UnboundLocalError`, because the
variable `ghpath` passed to `RBCFileException` is assigned only in the
remote-fetch branch (source lines 83 and 86). -/
theorem get_s3_path_local_literal_unbound :
    get_s3_path (some "/mirror") fsLiteralLink (fun _ => "")
      "rbc://repo1/participants.tsv" = .nameError := by decide

/-- C3: `_path_kind` returns `"file"` when the metadata query result is
an array (a directory listing), where the claim and the rest of the
module (`is_dir`, `is_file`) require `"directory"` — the `isinstance`
test on line 163 is inverted. -/
theorem path_kind_array_gives_file :
    path_kind none fsEmpty remoteSubListing "rbc://repo1/sub" =
      .ok "file" ∧
    (Except.ok "file" : Except FacadeError String) ≠ .ok "directory" :=
  ⟨by decide, by decide⟩

/-- C4: with the local mirror holding `repo1/sub` as a real directory
with exactly the children the remote metadata source reports, the
local-mirror listing consults no network oracle but yields virtual paths
that embed the absolute mirror path (entries come from `iterdir()`
unrelativized), so it differs from the remote listing. -/
theorem list_dir_local_mirror_diverges :
    list_dir none fsMirrorSub remoteSubListing "rbc://repo1/sub" false =
      .ok ["rbc://repo1/sub/a.txt", "rbc://repo1/sub/b.txt"] ∧
    list_dir (some "/mirror") fsMirrorSub remoteSubListing
        "rbc://repo1/sub" false =
      .ok ["rbc://repo1//mirror/repo1/sub/a.txt",
           "rbc://repo1//mirror/repo1/sub/b.txt"] ∧
    list_dir (some "/mirror") fsMirrorSub remoteSubListing
        "rbc://repo1/sub" false ≠
      list_dir none fsMirrorSub remoteSubListing "rbc://repo1/sub" false ∧
    list_dir (some "/mirror") fsMirrorSub (fun _ => GHJson.other)
        "rbc://repo1/sub" false =
      list_dir (some "/mirror") fsMirrorSub remoteSubListing
        "rbc://repo1/sub" false :=
  ⟨by decide, by decide, by decide, by decide⟩

/-- C5: each of the five mutation operations fails unconditionally — for
any arguments — with the read-only error, before any I/O (none of them
takes a filesystem or network oracle), and both raised exception values
carry the read-only message. -/
theorem mutation_ops_read_only (src dst path local_path cloud_path : String)
    (remove_src missing_ok parents exist_ok exist_ok2 : Bool) :
    move_file src dst remove_src = .error (.runtimeError readOnlyMsg) ∧
    remove path missing_ok = .error (.runtimeError readOnlyMsg) ∧
    upload_file local_path cloud_path =
      .error (.runtimeError readOnlyMsg) ∧
    mkdir parents exist_ok = .error (.typeError readOnlyMsg) ∧
    touch exist_ok2 = .error (.typeError readOnlyMsg) ∧
    isReadOnlyError (.runtimeError readOnlyMsg) = true ∧
    isReadOnlyError (.typeError readOnlyMsg) = true :=
  ⟨rfl, rfl, rfl, rfl, rfl, by decide, by decide⟩

/-- C6 counterexample: the scheme prefix is not stripped
case-insensitively — on `"Rbc://repo1/a"` the parser keeps the prefix and
returns repository `"Rbc:"` with tail `"repo1/a"`, not the `("repo1", "a")`
that case-insensitive stripping would give. -/
theorem path_split_repo_mixed_case_counterexample :
    path_split_repo "Rbc://repo1/a" = some ("Rbc:", "repo1/a") ∧
    path_split_repo "Rbc://repo1/a" ≠ some ("repo1", "a") :=
  ⟨by decide, by decide⟩

/-- C6 amended: the parser strips the scheme prefix only for the two
exact casings `rbc://` and `RBC://`, then strips leading separators,
takes the first remaining component as the repository and joins the rest
with `/` as the tail (empty when no components remain), raising
`IndexError` when there is no component at all. -/
theorem path_split_repo_matches_claim (path : String) :
    path_split_repo path = path_split_repo_claim path := by
  unfold path_split_repo path_split_repo_claim path_strip_scheme
  cases h₁ : strStartsWith "rbc://" path <;>
    cases h₂ : strStartsWith "RBC://" path <;>
      simp [h₁, h₂]

/-- C7 counterexample: the status record synthesized for Literal content
carries origin tag `"github://"` (the `st_dev` slot), not `"inline"`. -/
theorem stat_literal_origin_counterexample :
    rbcpath_stat (fun _ => { origin := "", size := 0, mtime := 0 })
        (.rbcExc "https://example" "a\tb") 7 =
      some { origin := "github://", size := 3, mtime := 7 } ∧
    ("github://" : String) ≠ "inline" :=
  ⟨by decide, by decide⟩

/-- C7 amended: for every path resolving to Literal content, `stat`
synthesizes a record whose origin tag is `"github://"`, whose size is the
byte length of the inline content, and whose timestamp is the resolution
time. -/
theorem stat_literal_synthesized (s3stat : String → StatRecord)
    (url contents : String) (now : Nat) :
    rbcpath_stat s3stat (.rbcExc url contents) now =
      some { origin := "github://", size := byteLen contents,
             mtime := now } := rfl

/-- C8: listing with `recursive = true` fails with
`NotImplementedError` for every path and every oracle — the result does
not depend on the filesystem or network oracles, so the failure precedes
any metadata query or other I/O. -/
theorem list_dir_recursive_unsupported (github_path : Option String)
    (fs : FSModel) (remote_json : String → GHJson) (path : String) :
    list_dir github_path fs remote_json path true =
      .error .notImplemented := rfl

/-- C9: resolution is deterministic — two resolutions of the same path
under the same configuration, with the filesystem and network oracles
returning identical data, produce identical results. -/
theorem get_s3_path_deterministic (github_path : Option String)
    (fs₁ fs₂ : FSModel) (slurp₁ slurp₂ : String → String) (path : String)
    (hfs : FSAgrees fs₁ fs₂) (hslurp : ∀ u, slurp₁ u = slurp₂ u) :
    get_s3_path github_path fs₁ slurp₁ path =
      get_s3_path github_path fs₂ slurp₂ path := by
  obtain ⟨h₁, h₂, h₃, h₄, h₅⟩ := hfs
  have hfs' : fs₁ = fs₂ := by
    cases fs₁
    cases fs₂
    simp only [FSModel.mk.injEq]
    exact ⟨funext h₁, funext h₂, funext h₃, funext h₄, funext h₅⟩
  have hslurp' : slurp₁ = slurp₂ := funext hslurp
  rw [hfs', hslurp']

theorem get_s3_path_deterministic_witness :
    get_s3_path (some "/mirror") fsLiteralLink (fun _ => "x")
        "rbc://repo1/participants.tsv" =
      get_s3_path (some "/mirror") fsLiteralLink (fun _ => "x")
        "rbc://repo1/participants.tsv" :=
  get_s3_path_deterministic (some "/mirror") fsLiteralLink fsLiteralLink
    (fun _ => "x") (fun _ => "x") "rbc://repo1/participants.tsv"
    ⟨fun _ => rfl, fun _ => rfl, fun _ => rfl, fun _ => rfl, fun _ => rfl⟩
    (fun _ => rfl)

/-- C10: any input left with no path components after scheme and
separator stripping makes the parser raise `IndexError` at `parts[0]`
instead of returning a repository reference. -/
theorem path_split_repo_empty_raises (path : String)
    (h : posixParts (lstripSlash (path_strip_scheme path)) = []) :
    path_split_repo path = none := by
  unfold path_split_repo
  rw [h]

theorem path_split_repo_empty_raises_witness :
    posixParts (lstripSlash (path_strip_scheme "rbc://")) = [] ∧
    path_split_repo "rbc://" = none :=
  ⟨by decide, path_split_repo_empty_raises "rbc://" (by decide)⟩

end Rbclib
